import Mathlib

/-!
# Verification of the `pdecrypt` candidate-password generator and batch decryptor

Shallow embedding of `src/main.rs` (crate `pdecrypt`): the candidate-password
generator (`init::dob::generate_formats`, `init::thai_citizen_id::parse_thai_citizen_id`),
the per-file decryption attempt (`decrypt::try_decrypt_from_password_list`), the
file selection (`decrypt::pdf_files`), the output-directory setup
(`decrypt::create_output_dir`) and the batch orchestration (`decrypt::decrypt`).

External capabilities (the qpdf codec's password check, filesystem existence,
directory creation, file writing) are modelled as boolean-valued oracles passed
in as parameters; chrono's `NaiveDate` is modelled as a day/month/year record
with the Gregorian validity predicate, and chronoutil's
`RelativeDuration::years` shift as its `shift_months`/`normalise_day`
arithmetic specialised to a whole number of years.
-/

set_option autoImplicit false
set_option linter.unusedVariables false

namespace Pdecrypt

/-! ## Calendar model (chrono `NaiveDate`, chronoutil year shift) -/

/-- Gregorian leap-year rule (chrono / chronoutil `is_leap_year`). -/
def is_leap_year (y : Int) : Bool :=
  (y % 4 == 0 && y % 100 != 0) || y % 400 == 0

/-- Number of days of month `m` (1 = January, .., 12 = December) of year `y`. -/
def days_in_month (y : Int) (m : Nat) : Nat :=
  if m = 2 then (if is_leap_year y then 29 else 28)
  else if m = 4 ∨ m = 6 ∨ m = 9 ∨ m = 11 then 30
  else 31

/-- chrono `NaiveDate`: a calendar date, year signed, month and day 1-based. -/
structure NaiveDate where
  year : Int
  month : Nat
  day : Nat
  deriving DecidableEq, Repr

/-- The invariant chrono maintains for every constructed `NaiveDate`:
a real proleptic Gregorian calendar date. -/
def NaiveDate.Valid (d : NaiveDate) : Prop :=
  1 ≤ d.month ∧ d.month ≤ 12 ∧ 1 ≤ d.day ∧ d.day ≤ days_in_month d.year d.month

instance (d : NaiveDate) : Decidable d.Valid := by
  unfold NaiveDate.Valid; infer_instance

/-- chronoutil `normalise_day`: clamp a day-of-month into the target month
(used by `shift_months` when the shifted date would not exist). -/
def normalise_day (y : Int) (m : Nat) (day : Nat) : Nat :=
  if day ≤ 28 then day
  else if m = 2 then 28 + (if is_leap_year y then 1 else 0)
  else if day = 31 ∧ (m = 4 ∨ m = 6 ∨ m = 9 ∨ m = 11) then 30
  else day

/-- `dob + RelativeDuration::years(n)` (chronoutil): `shift_months` by `12 * n`
months keeps the month, adds `n` to the year, and normalises the day into the
resulting month. -/
def shift_years (d : NaiveDate) (n : Int) : NaiveDate :=
  { year := d.year + n
    month := d.month
    day := normalise_day (d.year + n) d.month d.day }

/-! ## chrono formatting (`%d`, `%m`, `%Y`, `%y`, `%b`) -/

/-- Decimal rendering of `n`, zero-padded on the left to at least `w` digits. -/
def pad_nat (w n : Nat) : String :=
  let s := toString n
  String.mk (List.replicate (w - s.length) '0') ++ s

/-- chrono `%Y`: the full year, zero-padded to at least 4 digits, with a sign
for negative years. -/
def year4 (y : Int) : String :=
  if y < 0 then "-" ++ pad_nat 4 (-y).toNat else pad_nat 4 y.toNat

/-- chrono `%y`: the year modulo 100, zero-padded to 2 digits. -/
def year2 (y : Int) : String :=
  pad_nat 2 (y % 100).toNat

/-- chrono `%b`: abbreviated English month name. Months are 1-based; chrono
never formats an out-of-range month, so that case is irrelevant here. -/
def month_abbrev : Nat → String
  | 1 => "Jan" | 2 => "Feb" | 3 => "Mar" | 4 => "Apr"
  | 5 => "May" | 6 => "Jun" | 7 => "Jul" | 8 => "Aug"
  | 9 => "Sep" | 10 => "Oct" | 11 => "Nov" | 12 => "Dec"
  | _ => ""

/-- The four format strings of `generate_formats`:
`"%d%m%Y"`, `"%d%m%y"`, `"%d%b%Y"`, `"%d%b%y"`. -/
inductive Fmt | dmY | dmy | dbY | dby
  deriving DecidableEq, Repr

/-- `dob.format(format).to_string()` for the four format strings used. -/
def NaiveDate.format (d : NaiveDate) : Fmt → String
  | .dmY => pad_nat 2 d.day ++ pad_nat 2 d.month ++ year4 d.year
  | .dmy => pad_nat 2 d.day ++ pad_nat 2 d.month ++ year2 d.year
  | .dbY => pad_nat 2 d.day ++ month_abbrev d.month ++ year4 d.year
  | .dby => pad_nat 2 d.day ++ month_abbrev d.month ++ year2 d.year

/-! ## Candidate generation (`init`) -/

/-- `init::dob::generate_formats`: the eight date-derived candidates. Note the
order of `dobs` in the source: the 543-year-shifted date comes FIRST, then the
date as given. -/
def generate_formats (dob : NaiveDate) : List String :=
  let dobs := [shift_years dob 543, dob]
  let formats := [Fmt.dmY, Fmt.dmy, Fmt.dbY, Fmt.dby]
  dobs.flatMap (fun d => formats.map (fun f => d.format f))

/-- The full candidate list built in `init::init`:
`once(thai_citizen_id).chain(generate_formats(dob))`. -/
def generate (dob : NaiveDate) (id : String) : List String :=
  id :: generate_formats dob

/-- Rust `char::is_ascii_digit` (same range as Lean's `Char.isDigit`). -/
def is_ascii_digit (c : Char) : Bool :=
  '0' ≤ c && c ≤ '9'

/-- UTF-8 encoded size in bytes of one scalar value (Rust `str::len` counts
these; 1 for ASCII, up to 4 otherwise). -/
def char_utf8_len (c : Char) : Nat :=
  if c.toNat ≤ 0x7F then 1
  else if c.toNat ≤ 0x7FF then 2
  else if c.toNat ≤ 0xFFFF then 3
  else 4

/-- Rust `str::len`: the UTF-8 byte length of a string, given as `List Char`. -/
def utf8_len (s : List Char) : Nat :=
  (s.map char_utf8_len).sum

/-- `init::thai_citizen_id::parse_thai_citizen_id`, on the string's characters.
`s.len() != 13` in the source is the UTF-8 byte length. -/
def parse_thai_citizen_id (s : List Char) : Except String (List Char) :=
  if utf8_len s ≠ 13 then .error "Invalid length"
  else if !(s.all is_ascii_digit) then .error "Invalid character"
  else .ok s

/-! ## Decryption attempt engine (`decrypt::try_decrypt_from_password_list`)

The qpdf capability `QPdf::read_encrypted(path, pw).is_ok()` is modelled, for a
fixed file, as an oracle `cap : String → Bool` on the password (assumed
side-effect free, per the spec). -/

/-- `password_list.iter().find(|pw| QPdf::read_encrypted(path, pw).is_ok())`:
first password accepted by the capability, scanning in list order. -/
def find_pw (cap : String → Bool) : List String → Option String
  | [] => none
  | pw :: rest => if cap pw then some pw else find_pw cap rest

/-- The passwords on which the `find` loop invokes the capability, in
invocation order (it short-circuits after the first success). -/
def find_trace (cap : String → Bool) : List String → List String
  | [] => []
  | pw :: rest => if cap pw then [pw] else pw :: find_trace cap rest

/-- `decrypt::try_decrypt_from_password_list`. The source returns the opened
`QPdf` handle and reports the matched password; the model returns the matched
password (the handle is determined by re-opening with it). On exhaustion it
returns the eyre error carrying the file path. -/
def try_decrypt_from_password_list (cap : String → Bool) (path : String)
    (password_list : List String) : Except String String :=
  match find_pw cap password_list with
  | none => .error ("pdecrypt: Failed to find password for file: " ++ path)
  | some password => .ok password

/-- All capability invocations of one attempt, in order: the `find` loop's
invocations, plus the final `QPdf::read_encrypted(path, password)` the source
performs again on the matched password. -/
def try_decrypt_calls (cap : String → Bool) (password_list : List String) :
    List String :=
  find_trace cap password_list ++
    (match find_pw cap password_list with
     | some password => [password]
     | none => [])

/-! ## File selection (`decrypt::pdf_files`) -/

/-- One entry of `fs::read_dir`: its file name (last path component) and
whether it is a directory. The source's filter never consults the kind. -/
structure DirEntry where
  name : String
  isDir : Bool
  deriving DecidableEq, Repr

/-- Suffix of the character list after its last `'.'`, if any. -/
def ext_after_last_dot : List Char → Option (List Char)
  | [] => none
  | c :: rest =>
    match ext_after_last_dot rest with
    | some e => some e
    | none => if c = '.' then some rest else none

/-- Rust `Path::extension` on a file name: the portion after the last `.`,
except that a lone leading `.` (hidden-file convention) starts the stem and
yields no extension. -/
def path_extension (name : List Char) : Option (List Char) :=
  match name with
  | [] => none
  | c :: rest => if c = '.' then ext_after_last_dot rest else ext_after_last_dot (c :: rest)

/-- `u8::to_ascii_lowercase`, on characters. -/
def ascii_lower (c : Char) : Char :=
  if 'A' ≤ c && c ≤ 'Z' then Char.ofNat (c.toNat + 32) else c

/-- The filter of `decrypt::pdf_files`:
`path.extension().map(|ext| ext.to_ascii_lowercase() == "pdf").unwrap_or(false)`. -/
def is_pdf_entry (e : DirEntry) : Bool :=
  match path_extension e.name.data with
  | some ext => ext.map ascii_lower == "pdf".data
  | none => false

/-- `decrypt::pdf_files`: the directory's direct entries whose extension is
case-insensitively `pdf` (`read_dir` is non-recursive). -/
def pdf_files (entries : List DirEntry) : List DirEntry :=
  entries.filter is_pdf_entry

/-! ## Batch orchestration (`decrypt::decrypt`, `decrypt::create_output_dir`)

Filesystem effects are oracles: `exists_fn` for `Path::exists`, `create_ok`
for `fs::create_dir`, `wr` for the codec's
`writer().preserve_encryption(false).write(&new_path)`, and the batch
capability `cap : file name → password → Bool` for `QPdf::read_encrypted`. -/

/-- `decrypt::create_output_dir`: sibling directory named
`<input-dir-basename>_pdfs_decrypted_<timestamp>`; error if it already exists,
then `fs::create_dir`. -/
def create_output_dir (exists_fn : String → Bool) (create_ok : Bool)
    (basename stamp : String) : Except String String :=
  let output_dir := basename ++ "_pdfs_decrypted_" ++ stamp
  if exists_fn output_dir then
    .error ("pdecrypt: Output directory already exists: " ++ output_dir)
  else if create_ok then .ok output_dir
  else .error ("pdecrypt: create_dir failed: " ++ output_dir)

/-- The per-file pipeline in `decrypt`'s map: attempt decryption, then write
the decrypted copy under the original base name into `output_dir`. `Except.ok`
carries the written path, `Except.error` the per-file failure. -/
def process_file (cap : String → Bool) (wr : String → Bool)
    (password_list : List String) (output_dir name : String) :
    Except String String :=
  match try_decrypt_from_password_list cap name password_list with
  | .error e => .error e
  | .ok _password =>
    let new_path := output_dir ++ "/" ++ name
    if wr new_path then .ok new_path
    else .error ("pdecrypt: Failed to write file: " ++ new_path)

/-- The batch loop: every selected PDF entry is mapped through the per-file
pipeline (`partition_result` consumes all of them; there is no early exit). -/
def decrypt_run (cap : String → String → Bool) (wr : String → Bool)
    (password_list : List String) (output_dir : String)
    (entries : List DirEntry) : List (Except String String) :=
  (pdf_files entries).map (fun e => process_file (cap e.name) wr password_list output_dir e.name)

/-- Lines printed by the failure-report block at the end of `decrypt`
(source lines 130–139): the header and each error are printed only under
`verbose`. -/
def failure_report (verbose : Bool) (errors : List String) : List String :=
  if errors.isEmpty then []
  else
    (if verbose then ["pdecrypt: Failed to decrypt files:"] else []) ++
      errors.flatMap (fun err => if verbose then [err] else [])

/-- Observable outcome of one `decrypt` run: its `Result`, the files written,
the per-file failures collected by `partition_result`, and the failure lines
printed at the end. -/
structure RunResult where
  result : Except String Unit
  written : List String
  failures : List String
  reported : List String
  deriving Repr

/-- `decrypt::decrypt`, in the source's order of operations: load and parse
the password list (fatal on error), resolve the output directory (an explicit
`--output-dir` is used as-is; otherwise `create_output_dir`, fatal on error),
read the input directory (fatal on error), then run every selected file and
partition results; per-file failures only feed the report, and the function
returns `Ok(())`. -/
def decrypt (pw_list_file : Except String (List String))
    (output_dir_arg : Option String) (exists_fn : String → Bool)
    (create_ok : Bool) (basename stamp : String)
    (read_dir : Except String (List DirEntry))
    (cap : String → String → Bool) (wr : String → Bool)
    (verbose : Bool) : RunResult :=
  match pw_list_file with
  | .error e => { result := .error e, written := [], failures := [], reported := [] }
  | .ok pw_list =>
    let output_dirE : Except String String :=
      match output_dir_arg with
      | some dir => .ok dir
      | none => create_output_dir exists_fn create_ok basename stamp
    match output_dirE with
    | .error e => { result := .error e, written := [], failures := [], reported := [] }
    | .ok output_dir =>
      match read_dir with
      | .error e => { result := .error e, written := [], failures := [], reported := [] }
      | .ok entries =>
        let results := decrypt_run cap wr pw_list output_dir entries
        let errors := results.filterMap (fun r => match r with
          | .error e => some e | .ok _ => none)
        let written := results.filterMap (fun r => match r with
          | .ok p => some p | .error _ => none)
        { result := .ok ()
          written := written
          failures := errors
          reported := failure_report verbose errors }

/-! ## Calendar lemmas -/

/-- 543 years after a leap year is never a leap year (543 is odd, so
divisibility by 4 is destroyed; the century rules cannot restore it). -/
theorem is_leap_year_shift_543 (y : Int) (h : is_leap_year y = true) :
    is_leap_year (y + 543) = false := by
  simp [is_leap_year] at *
  omega

/-- On a day that is valid for its month (in the original year),
`normalise_day` only moves 29 February, and moves it to the last day of
February of the target year. -/
theorem normalise_day_of_valid (y y2 : Int) (m day : Nat)
    (hday : 1 ≤ day ∧ day ≤ days_in_month y m) :
    normalise_day y2 m day =
      if m = 2 ∧ day = 29 then 28 + (if is_leap_year y2 then 1 else 0)
      else day := by
  obtain ⟨h1, h2⟩ := hday
  cases hl : is_leap_year y <;>
    simp only [days_in_month, hl, if_true, if_false] at h2 <;>
    unfold normalise_day <;>
    split_ifs at h2 ⊢ <;> omega

/-- A valid date with day 29 in month 2 forces a leap year. -/
theorem leap_of_feb29 (d : NaiveDate) (h : d.Valid) (hm : d.month = 2)
    (hd : d.day = 29) : is_leap_year d.year = true := by
  obtain ⟨_, _, _, h2⟩ := h
  by_contra hl
  simp only [Bool.not_eq_true] at hl
  rw [hm, hd] at h2
  simp [days_in_month, hl] at h2

/-! ## Claim theorems -/

/-- C1 (counterexample): the claim fails on 29 February of a leap year.
For dob = 2000-02-29 (a valid date), the era-shifted date is 2543-02-28:
the day component changes, because 2543 is not a leap year. -/
theorem C1_counterexample :
    NaiveDate.Valid ⟨2000, 2, 29⟩ ∧
    shift_years ⟨2000, 2, 29⟩ 543 ≠ ⟨2000 + 543, 2, 29⟩ ∧
    shift_years ⟨2000, 2, 29⟩ 543 = ⟨2543, 2, 28⟩ := by
  decide

/-- C1 (amended): for every valid date of birth, the era-shifted date used by
the candidate generator has year = year + 543 and the same month; the day is
also unchanged except when the date is 29 February of a leap year, in which
case the shifted day is clamped to 28 (year + 543 is never a leap year). -/
theorem C1_era_shift (d : NaiveDate) (h : d.Valid) :
    (shift_years d 543).year = d.year + 543 ∧
    (shift_years d 543).month = d.month ∧
    (¬(d.month = 2 ∧ d.day = 29) → (shift_years d 543).day = d.day) ∧
    ((d.month = 2 ∧ d.day = 29) → (shift_years d 543).day = 28) := by
  obtain ⟨hm1, hm2, hd1, hd2⟩ := h
  refine ⟨rfl, rfl, ?_, ?_⟩
  · intro hne
    show normalise_day (d.year + 543) d.month d.day = d.day
    rw [normalise_day_of_valid d.year (d.year + 543) d.month d.day ⟨hd1, hd2⟩]
    simp [hne]
  · rintro ⟨hm, hd⟩
    show normalise_day (d.year + 543) d.month d.day = 28
    rw [normalise_day_of_valid d.year (d.year + 543) d.month d.day ⟨hd1, hd2⟩]
    have hleap : is_leap_year d.year = true :=
      leap_of_feb29 d ⟨hm1, hm2, hd1, hd2⟩ hm hd
    simp [hm, hd, is_leap_year_shift_543 d.year hleap]

/-- C1 (witness): the amended theorem applied to the valid date 1996-12-27. -/
theorem C1_era_shift_witness :
    NaiveDate.Valid ⟨1996, 12, 27⟩ ∧
    ((shift_years ⟨1996, 12, 27⟩ 543).year = (1996 : Int) + 543 ∧
     (shift_years ⟨1996, 12, 27⟩ 543).month = 12 ∧
     (¬((12 : Nat) = 2 ∧ (27 : Nat) = 29) → (shift_years ⟨1996, 12, 27⟩ 543).day = 27) ∧
     (((12 : Nat) = 2 ∧ (27 : Nat) = 29) → (shift_years ⟨1996, 12, 27⟩ 543).day = 28)) :=
  ⟨by decide, C1_era_shift ⟨1996, 12, 27⟩ (by decide)⟩

/-- A character accepted by `is_ascii_digit` is ASCII, hence one UTF-8 byte. -/
theorem char_utf8_len_digit (c : Char) (h : is_ascii_digit c = true) :
    char_utf8_len c = 1 := by
  simp only [is_ascii_digit, Bool.and_eq_true, decide_eq_true_eq] at h
  have h4 : c.val.toNat ≤ (('9' : Char).val).toNat := Char.le_def.mp h.2
  have h9 : (('9' : Char).val).toNat = 57 := rfl
  rw [h9] at h4
  have hc : c.toNat ≤ 0x7F := Nat.le_trans h4 (by omega)
  simp [char_utf8_len, hc]

/-- A string of ASCII digits has UTF-8 byte length equal to its character
count. -/
theorem utf8_len_of_digits (s : List Char)
    (h : ∀ c ∈ s, is_ascii_digit c = true) : utf8_len s = s.length := by
  induction s with
  | nil => rfl
  | cons c cs ih =>
    have hc := char_utf8_len_digit c (h c (by simp))
    have hcs := ih (fun x hx => h x (by simp [hx]))
    simp only [utf8_len, List.map_cons, List.sum_cons, List.length_cons] at *
    omega

/-- Exhaustive case analysis of `parse_thai_citizen_id`. -/
theorem parse_thai_citizen_id_cases (s : List Char) :
    (utf8_len s = 13 ∧ s.all is_ascii_digit = true ∧
      parse_thai_citizen_id s = .ok s) ∨
    (utf8_len s ≠ 13 ∧ parse_thai_citizen_id s = .error "Invalid length") ∨
    (utf8_len s = 13 ∧ s.all is_ascii_digit = false ∧
      parse_thai_citizen_id s = .error "Invalid character") := by
  unfold parse_thai_citizen_id
  by_cases hlen : utf8_len s = 13
  · by_cases hdig : s.all is_ascii_digit = true
    · exact Or.inl ⟨hlen, hdig, by simp [hlen, hdig]⟩
    · have hdig' : s.all is_ascii_digit = false := by simpa using hdig
      exact Or.inr (Or.inr ⟨hlen, hdig', by simp [hlen, hdig']⟩)
  · exact Or.inr (Or.inl ⟨hlen, by simp [hlen]⟩)

/-- C9: national-ID parsing succeeds exactly on 13-character ASCII-digit
strings, returns the input unchanged, and otherwise fails with one of the
two invalid-national-ID errors. -/
theorem C9_parse_thai_citizen_id (s : List Char) :
    (parse_thai_citizen_id s = .ok s ↔
      s.length = 13 ∧ ∀ c ∈ s, is_ascii_digit c = true) ∧
    (∀ t, parse_thai_citizen_id s = .ok t → t = s) ∧
    (¬(s.length = 13 ∧ ∀ c ∈ s, is_ascii_digit c = true) →
      parse_thai_citizen_id s = .error "Invalid length" ∨
      parse_thai_citizen_id s = .error "Invalid character") := by
  rcases parse_thai_citizen_id_cases s with ⟨hlen, hdig, heq⟩ |
    ⟨hlen, heq⟩ | ⟨hlen, hdig, heq⟩
  · have hall := List.all_eq_true.mp hdig
    have hlen' : s.length = 13 := by rw [← utf8_len_of_digits s hall]; exact hlen
    refine ⟨⟨fun _ => ⟨hlen', hall⟩, fun _ => heq⟩, ?_, ?_⟩
    · intro t hok
      rw [heq] at hok
      exact (Except.ok.injEq _ _ ▸ hok).symm
    · intro hno
      exact absurd ⟨hlen', hall⟩ hno
  · refine ⟨⟨fun hok => ?_, fun hc => ?_⟩, ?_, fun _ => Or.inl heq⟩
    · rw [heq] at hok; exact absurd hok (by simp)
    · exfalso
      exact hlen (by rw [utf8_len_of_digits s hc.2, hc.1])
    · intro t hok
      rw [heq] at hok; exact absurd hok (by simp)
  · have hnall : ¬∀ c ∈ s, is_ascii_digit c = true := by
      intro hall
      rw [List.all_eq_true.mpr hall] at hdig
      simp at hdig
    refine ⟨⟨fun hok => ?_, fun hc => absurd hc.2 hnall⟩, ?_,
      fun _ => Or.inr heq⟩
    · rw [heq] at hok; exact absurd hok (by simp)
    · intro t hok
      rw [heq] at hok; exact absurd hok (by simp)

/-- C9 (witness): the theorem applied to a valid 13-digit ID and to a
too-short string. -/
theorem C9_parse_thai_citizen_id_witness :
    parse_thai_citizen_id "1234567890123".data = .ok "1234567890123".data ∧
    (parse_thai_citizen_id "12a".data = .error "Invalid length" ∨
     parse_thai_citizen_id "12a".data = .error "Invalid character") :=
  ⟨(C9_parse_thai_citizen_id "1234567890123".data).1.mpr (by decide),
   (C9_parse_thai_citizen_id "12a".data).2.2 (by decide)⟩

/-- C2 (counterexample): the claimed order — national ID, then the four
renderings of the date as given, then the four renderings of the shifted
date — is not the order produced for dob = 1996-12-27: the source builds
`vec![dob + 543 years, dob]`, so the shifted-era renderings come first. -/
theorem C2_counterexample :
    generate ⟨1996, 12, 27⟩ "1234567890123" ≠
      ["1234567890123",
       "27121996", "271296", "27Dec1996", "27Dec96",
       "27122539", "271239", "27Dec2539", "27Dec39"] := by
  decide

/-- C2 (amended): for every valid date of birth and national ID, the candidate
list is: the national ID first, then the four fixed-format renderings of the
543-year-SHIFTED date, then the four fixed-format renderings of the date as
given, the four formats in the order: zero-padded day-month-4-digit-year,
zero-padded day-month-2-digit-year, day + abbreviated month + 4-digit year,
day + abbreviated month + 2-digit year. -/
theorem C2_generate_order (dob : NaiveDate) (id : String) (h : dob.Valid) :
    generate dob id =
      [id,
       (shift_years dob 543).format .dmY, (shift_years dob 543).format .dmy,
       (shift_years dob 543).format .dbY, (shift_years dob 543).format .dby,
       dob.format .dmY, dob.format .dmy, dob.format .dbY, dob.format .dby] :=
  rfl

/-- C2 (witness): the amended order at dob = 1996-12-27. -/
theorem C2_generate_order_witness :
    NaiveDate.Valid ⟨1996, 12, 27⟩ ∧
    generate ⟨1996, 12, 27⟩ "1234567890123" =
      ["1234567890123",
       (shift_years ⟨1996, 12, 27⟩ 543).format .dmY,
       (shift_years ⟨1996, 12, 27⟩ 543).format .dmy,
       (shift_years ⟨1996, 12, 27⟩ 543).format .dbY,
       (shift_years ⟨1996, 12, 27⟩ 543).format .dby,
       NaiveDate.format ⟨1996, 12, 27⟩ .dmY, NaiveDate.format ⟨1996, 12, 27⟩ .dmy,
       NaiveDate.format ⟨1996, 12, 27⟩ .dbY, NaiveDate.format ⟨1996, 12, 27⟩ .dby] :=
  ⟨by decide, C2_generate_order ⟨1996, 12, 27⟩ "1234567890123" (by decide)⟩

/-- C3: for every valid date of birth and valid national ID, `generate`
returns exactly 9 entries, entry 0 is the national ID, and generation is
deterministic (equal inputs give equal, equally ordered lists). -/
theorem C3_generate_nine (dob : NaiveDate) (id : String) (hd : dob.Valid)
    (hid : parse_thai_citizen_id id.data = .ok id.data) :
    (generate dob id).length = 9 ∧
    (generate dob id)[0]? = some id ∧
    (∀ dob2 id2, dob2 = dob → id2 = id →
      generate dob2 id2 = generate dob id) := by
  refine ⟨rfl, rfl, ?_⟩
  rintro dob2 id2 rfl rfl
  rfl

/-- C3 (witness): the theorem at dob = 1996-12-27, ID "1234567890123". -/
theorem C3_generate_nine_witness :
    (generate ⟨1996, 12, 27⟩ "1234567890123").length = 9 ∧
    (generate ⟨1996, 12, 27⟩ "1234567890123")[0]? = some "1234567890123" ∧
    (∀ dob2 id2, dob2 = (⟨1996, 12, 27⟩ : NaiveDate) → id2 = "1234567890123" →
      generate dob2 id2 = generate ⟨1996, 12, 27⟩ "1234567890123") :=
  C3_generate_nine ⟨1996, 12, 27⟩ "1234567890123" (by decide) (by rfl)

/-! ## Engine lemmas -/

/-- If every password before index `k` is rejected and index `k` is accepted,
the `find` loop returns the password at `k` and its invocation trace is
exactly the first `k + 1` passwords. -/
theorem find_pw_spec (cap : String → Bool) (l : List String) (k : Nat)
    (hk : k < l.length)
    (hpre : ∀ i, i < k → cap (l.getD i "") = false)
    (hhit : cap (l.getD k "") = true) :
    find_pw cap l = some (l.getD k "") ∧ find_trace cap l = l.take (k + 1) := by
  induction l generalizing k with
  | nil => simp at hk
  | cons pw rest ih =>
    cases k with
    | zero =>
      simp only [List.getD_cons_zero] at hhit ⊢
      simp [find_pw, find_trace, hhit]
    | succ k =>
      have h0 : cap pw = false := by simpa using hpre 0 (Nat.succ_pos k)
      simp only [List.getD_cons_succ] at hhit ⊢
      have hk' : k < rest.length := by simpa using hk
      have hpre' : ∀ i, i < k → cap (rest.getD i "") = false := by
        intro i hi
        simpa using hpre (i + 1) (by omega)
      obtain ⟨hf, ht⟩ := ih k hk' hpre' hhit
      constructor
      · simp [find_pw, h0, hf]
      · simp [find_trace, h0, ht]

/-- If every password is rejected, the `find` loop returns nothing. -/
theorem find_pw_eq_none (cap : String → Bool) (l : List String)
    (h : ∀ pw ∈ l, cap pw = false) : find_pw cap l = none := by
  induction l with
  | nil => rfl
  | cons pw rest ih =>
    simp [find_pw, h pw (by simp), ih fun p hp => h p (by simp [hp])]

/-- The element at index `k` belongs to the prefix of length `k + 1`. -/
theorem getD_mem_take (l : List String) (k : Nat) (hk : k < l.length) :
    l.getD k "" ∈ l.take (k + 1) := by
  induction l generalizing k with
  | nil => simp at hk
  | cons pw rest ih =>
    cases k with
    | zero => simp
    | succ k =>
      simp only [List.getD_cons_succ, List.take_succ_cons]
      exact List.mem_cons_of_mem _ (ih k (by simpa using hk))

/-- C4: if the capability first succeeds at index `k`, the attempt reports
exactly the password at index `k` and every capability invocation is on one
of the first `k + 1` candidates (none at an index beyond `k`); if no candidate
succeeds, the attempt fails with the no-matching-password error carrying the
file path. -/
theorem C4_attempt_engine (cap : String → Bool) (path : String)
    (pws : List String) :
    (∀ k, k < pws.length →
      (∀ i, i < k → cap (pws.getD i "") = false) →
      cap (pws.getD k "") = true →
      try_decrypt_from_password_list cap path pws = .ok (pws.getD k "") ∧
      ∀ pw ∈ try_decrypt_calls cap pws, pw ∈ pws.take (k + 1)) ∧
    ((∀ pw ∈ pws, cap pw = false) →
      try_decrypt_from_password_list cap path pws =
        .error ("pdecrypt: Failed to find password for file: " ++ path)) := by
  constructor
  · intro k hk hpre hhit
    obtain ⟨hf, ht⟩ := find_pw_spec cap pws k hk hpre hhit
    constructor
    · simp [try_decrypt_from_password_list, hf]
    · intro pw hpw
      simp only [try_decrypt_calls, hf, List.mem_append] at hpw
      rcases hpw with hpw | hpw
      · rw [ht] at hpw; exact hpw
      · simp only [List.mem_singleton] at hpw
        subst hpw
        exact getD_mem_take pws k hk
  · intro hall
    simp [try_decrypt_from_password_list, find_pw_eq_none cap pws hall]

/-- C4 (witness): the capability accepts only "b"; on the list
["a", "b", "c"] the attempt matches at index 1, every invocation stays in
the first two candidates; on an all-rejecting capability the attempt fails
with the error carrying "f.pdf". -/
theorem C4_attempt_engine_witness :
    (try_decrypt_from_password_list (fun s => s == "b") "f.pdf"
        ["a", "b", "c"] = .ok ((["a", "b", "c"] : List String).getD 1 "") ∧
     ∀ pw ∈ try_decrypt_calls (fun s => s == "b") ["a", "b", "c"],
       pw ∈ (["a", "b", "c"] : List String).take 2) ∧
    try_decrypt_from_password_list (fun _ => false) "f.pdf" ["a", "b"] =
      .error ("pdecrypt: Failed to find password for file: " ++ "f.pdf") := by
  refine ⟨?_, (C4_attempt_engine (fun _ => false) "f.pdf" ["a", "b"]).2 ?_⟩
  · exact (C4_attempt_engine (fun s => s == "b") "f.pdf" ["a", "b", "c"]).1 1
      (by decide)
      (by intro i hi
          have hi0 : i = 0 := by omega
          subst hi0
          decide)
      (by decide)
  · intro pw _
    rfl

/-! ## Reporting and batch lemmas -/

/-- C5 (counterexample): a batch run invoked without `--verbose` (the default)
collects a per-file failure but reports nothing: the failure is silently
dropped from the user-visible output, refuting "regardless of how the run was
invoked". -/
theorem C5_counterexample :
    (decrypt (.ok []) (some "out") (fun _ => false) true "in" "ts"
        (.ok [⟨"a.pdf", false⟩]) (fun _ _ => false) (fun _ => true)
        false).failures =
      ["pdecrypt: Failed to find password for file: a.pdf"] ∧
    (decrypt (.ok []) (some "out") (fun _ => false) true "in" "ts"
        (.ok [⟨"a.pdf", false⟩]) (fun _ _ => false) (fun _ => true)
        false).reported = [] := by
  constructor <;> rfl

/-- C5 (amended): per-file failures are collected, but the end-of-run summary
prints them only when the run is invoked with the verbose flag: a verbose run
reports a header followed by every failure; a non-verbose run reports
nothing. -/
theorem C5_failure_report (errors : List String) :
    (errors ≠ [] → failure_report true errors =
      "pdecrypt: Failed to decrypt files:" :: errors) ∧
    failure_report false errors = [] ∧
    (errors = [] → failure_report true errors = []) := by
  refine ⟨?_, ?_, ?_⟩
  · intro h
    simp [failure_report, h]
  · cases errors with
    | nil => rfl
    | cons e es => simp [failure_report]
  · intro h
    subst h
    rfl

/-- C5 (witness): the amended report shape at a single concrete failure. -/
theorem C5_failure_report_witness :
    failure_report true ["pdecrypt: Failed to find password for file: a.pdf"] =
      ["pdecrypt: Failed to decrypt files:",
       "pdecrypt: Failed to find password for file: a.pdf"] ∧
    failure_report false
      ["pdecrypt: Failed to find password for file: a.pdf"] = [] :=
  ⟨(C5_failure_report _).1 (by simp),
   (C5_failure_report ["pdecrypt: Failed to find password for file: a.pdf"]).2.1⟩

/-- C6: per-file failures never abort the batch. With sound infrastructure the
run returns success for EVERY capability and write oracle (including the one
rejecting everything, i.e. when every file fails); the batch loop produces one
result per selected file; and a fatal result can only stem from the password
list, the input-directory listing, or default output-directory creation. -/
theorem C6_batch_isolation (pws : List String) (entries : List DirEntry)
    (out : String) (efn : String → Bool) (ck : Bool) (bn st : String)
    (cap : String → String → Bool) (wr : String → Bool) (v : Bool) :
    (decrypt (.ok pws) (some out) efn ck bn st (.ok entries) cap wr
      v).result = .ok () ∧
    (decrypt_run cap wr pws out entries).length = (pdf_files entries).length ∧
    (∀ e pwE oa rd,
      (decrypt pwE oa efn ck bn st rd cap wr v).result = .error e →
      pwE = .error e ∨ rd = .error e ∨
        (oa = none ∧ create_output_dir efn ck bn st = .error e)) := by
  refine ⟨rfl, by simp [decrypt_run], ?_⟩
  intro e pwE oa rd h
  rcases pwE with e' | pws'
  · simp only [decrypt, Except.error.injEq] at h
    subst h
    left
    rfl
  · rcases oa with _ | d
    · cases hc : create_output_dir efn ck bn st with
      | error e' =>
        simp only [decrypt, hc, Except.error.injEq] at h
        subst h
        right; right
        exact ⟨rfl, rfl⟩
      | ok od =>
        rcases rd with e' | entries'
        · simp only [decrypt, hc, Except.error.injEq] at h
          subst h
          right; left
          rfl
        · simp only [decrypt, hc] at h
          exact absurd h (by simp)
    · rcases rd with e' | entries'
      · simp only [decrypt, Except.error.injEq] at h
        subst h
        right; left
        rfl
      · simp only [decrypt] at h
        exact absurd h (by simp)

/-- C6 (witness): a run in which the single file fails (capability and write
both reject) still succeeds; a run whose password list is unreadable is fatal
with that very error. -/
theorem C6_batch_isolation_witness :
    (decrypt (.ok ["p"]) (some "o") (fun _ => false) true "b" "s"
        (.ok [⟨"a.pdf", false⟩]) (fun _ _ => false) (fun _ => false)
        false).result = .ok () ∧
    ((.error "boom" : Except String (List String)) = .error "boom" ∨
     (.ok [] : Except String (List DirEntry)) = .error "boom" ∨
     ((some "o" : Option String) = none ∧
      create_output_dir (fun _ => false) true "b" "s" = .error "boom")) :=
  ⟨(C6_batch_isolation ["p"] [⟨"a.pdf", false⟩] "o" (fun _ => false) true
      "b" "s" (fun _ _ => false) (fun _ => false) false).1,
   (C6_batch_isolation ["p"] [] "o" (fun _ => false) true "b" "s"
      (fun _ _ => false) (fun _ => false) false).2.2 "boom" (.error "boom")
      (some "o") (.ok []) rfl⟩

/-- C7 (counterexample): a SUBDIRECTORY named `sub.pdf` is selected for
processing — the filter looks only at the entry's extension, never at whether
it is a directory. -/
theorem C7_counterexample :
    pdf_files [⟨"sub.pdf", true⟩] = [⟨"sub.pdf", true⟩] ∧
    (⟨"sub.pdf", true⟩ : DirEntry).isDir = true := by
  constructor <;> rfl

/-- C7 (amended): file selection is non-recursive and selects exactly the
entries — files OR directories — whose name's extension compares
case-insensitively equal to "pdf"; `.PDF`/`.Pdf` are selected, `.txt`,
`.PDFX` and extensionless entries are not. -/
theorem C7_pdf_files_selection (entries : List DirEntry) (e : DirEntry) :
    (e ∈ pdf_files entries ↔ e ∈ entries ∧
      ∃ ext, path_extension e.name.data = some ext ∧
        ext.map ascii_lower = "pdf".data) ∧
    is_pdf_entry ⟨"a.PDF", false⟩ = true ∧
    is_pdf_entry ⟨"a.Pdf", false⟩ = true ∧
    is_pdf_entry ⟨"a.txt", false⟩ = false ∧
    is_pdf_entry ⟨"a.PDFX", false⟩ = false ∧
    is_pdf_entry ⟨"noext", true⟩ = false := by
  refine ⟨?_, rfl, rfl, rfl, rfl, rfl⟩
  rw [pdf_files, List.mem_filter]
  constructor
  · rintro ⟨hm, hp⟩
    refine ⟨hm, ?_⟩
    unfold is_pdf_entry at hp
    cases hx : path_extension e.name.data with
    | none => rw [hx] at hp; simp at hp
    | some ext =>
      rw [hx] at hp
      exact ⟨ext, rfl, by simpa using hp⟩
  · rintro ⟨hm, ext, hx, hl⟩
    refine ⟨hm, ?_⟩
    unfold is_pdf_entry
    rw [hx]
    simp [hl]

/-- C7 (witness): the characterisation instantiated on a one-entry listing. -/
theorem C7_pdf_files_selection_witness :
    (⟨"x.pdf", false⟩ : DirEntry) ∈ pdf_files [⟨"x.pdf", false⟩] :=
  (C7_pdf_files_selection [⟨"x.pdf", false⟩] ⟨"x.pdf", false⟩).1.mpr
    ⟨by simp, ['p', 'd', 'f'], rfl, rfl⟩

/-- C8 (counterexample): with an EXPLICIT `--output-dir` pointing at an
already-existing path (the existence oracle answers true on every path), the
run does not fail fast: it succeeds and writes a file. -/
theorem C8_counterexample :
    (decrypt (.ok ["p"]) (some "outdir") (fun _ => true) true "in" "ts"
        (.ok [⟨"a.pdf", false⟩]) (fun _ _ => true) (fun _ => true)
        false).result = .ok () ∧
    (decrypt (.ok ["p"]) (some "outdir") (fun _ => true) true "in" "ts"
        (.ok [⟨"a.pdf", false⟩]) (fun _ _ => true) (fun _ => true)
        false).written = ["outdir/a.pdf"] := by
  constructor <;> rfl

/-- C8 (amended): when NO explicit output directory is given and the generated
default sibling path already exists, the run fails fast with the
directory-already-exists error, before any file is processed: zero files
written, zero per-file outcomes recorded. -/
theorem C8_default_output_dir_exists (pws : List String)
    (efn : String → Bool) (ck : Bool) (bn st : String)
    (rd : Except String (List DirEntry)) (cap : String → String → Bool)
    (wr : String → Bool) (v : Bool)
    (h : efn (bn ++ "_pdfs_decrypted_" ++ st) = true) :
    (decrypt (.ok pws) none efn ck bn st rd cap wr v).result =
      .error ("pdecrypt: Output directory already exists: " ++
        (bn ++ "_pdfs_decrypted_" ++ st)) ∧
    (decrypt (.ok pws) none efn ck bn st rd cap wr v).written = [] ∧
    (decrypt (.ok pws) none efn ck bn st rd cap wr v).failures = [] := by
  have hc : create_output_dir efn ck bn st =
      .error ("pdecrypt: Output directory already exists: " ++
        (bn ++ "_pdfs_decrypted_" ++ st)) := by
    simp [create_output_dir, h]
  refine ⟨?_, ?_, ?_⟩ <;> simp [decrypt, hc]

/-- C8 (witness): the amended theorem on a concrete always-existing path. -/
theorem C8_default_output_dir_exists_witness :
    (decrypt (.ok ["p"]) none (fun _ => true) true "in" "ts"
        (.ok [⟨"a.pdf", false⟩]) (fun _ _ => true) (fun _ => true)
        false).result =
      .error ("pdecrypt: Output directory already exists: " ++
        ("in" ++ "_pdfs_decrypted_" ++ "ts")) ∧
    (decrypt (.ok ["p"]) none (fun _ => true) true "in" "ts"
        (.ok [⟨"a.pdf", false⟩]) (fun _ _ => true) (fun _ => true)
        false).written = [] ∧
    (decrypt (.ok ["p"]) none (fun _ => true) true "in" "ts"
        (.ok [⟨"a.pdf", false⟩]) (fun _ _ => true) (fun _ => true)
        false).failures = [] :=
  C8_default_output_dir_exists ["p"] (fun _ => true) true "in" "ts"
    (.ok [⟨"a.pdf", false⟩]) (fun _ _ => true) (fun _ => true) false rfl

/-- Extracting the errors from a list made only of errors yields the
underlying messages. -/
theorem filterMap_error_extract (l : List DirEntry) (msg : DirEntry → String) :
    ((l.map (fun e => (Except.error (msg e) : Except String String))).filterMap
      (fun r => match r with
        | Except.error p => some p
        | Except.ok _ => none)) = l.map msg := by
  induction l with
  | nil => rfl
  | cons e es ih => simp only [List.map_cons, List.filterMap_cons, ih]

/-- C10: with an empty candidate list, every per-file attempt fails with the
no-matching-password error carrying the file path, without a single capability
invocation; a batch run over any listing records one such failure per selected
file and still returns overall success. -/
theorem C10_empty_candidates (cap : String → Bool) (path out bn st : String)
    (efn : String → Bool) (cap2 : String → String → Bool)
    (wr : String → Bool) (entries : List DirEntry) (v : Bool) :
    try_decrypt_from_password_list cap path [] =
      .error ("pdecrypt: Failed to find password for file: " ++ path) ∧
    try_decrypt_calls cap [] = [] ∧
    (decrypt (.ok []) (some out) efn true bn st (.ok entries) cap2 wr
      v).result = .ok () ∧
    (decrypt (.ok []) (some out) efn true bn st (.ok entries) cap2 wr
      v).failures = (pdf_files entries).map
        (fun e => "pdecrypt: Failed to find password for file: " ++ e.name) := by
  refine ⟨rfl, rfl, rfl, ?_⟩
  have h2 : (decrypt (.ok []) (some out) efn true bn st (.ok entries) cap2 wr
        v).failures =
      ((pdf_files entries).map (fun e =>
        (Except.error ("pdecrypt: Failed to find password for file: " ++
          e.name) : Except String String))).filterMap
        (fun r => match r with
          | Except.error p => some p
          | Except.ok _ => none) := rfl
  rw [h2, filterMap_error_extract]

end Pdecrypt
